import Mathlib

/-!
Verification of the photo-tagger pipeline against its design document.

The development shallowly embeds the pure content of src/src/photo_tagger/tagger.py and
src/src/photo_tagger/app.py (the single-file variant src/photo_tagger.py agrees with them
on everything modelled here): the EXIF coordinate decoder, the place-string formatter and
its retry loop, the 16:9 letterboxing geometry, the caption layout, the output-path
selection, and the tagged-marker bookkeeping of the web route.  Python floats are
modelled as exact rationals, Python ints as Lean integers, and the external collaborators
(EXIF parser, geocoding client, image codec, filesystem) as explicit parameters or
effect lists.
-/

namespace PhotoTagger

/-- Python exceptions that the embedded code can raise: the ZeroDivisionError raised by
float division by zero, and the UnboundLocalError raised by reading a local variable
that was never assigned. -/
inductive PyErr where
  | zeroDivisionError
  | unboundLocal
  deriving DecidableEq

/-- An EXIF rational value: a numerator and denominator pair, the fields v.num and
v.den of an exifread Ratio. -/
structure ExifRational where
  num : Int
  den : Int
  deriving DecidableEq

/-- Python float division float(num) / float(den): it raises ZeroDivisionError when the
denominator is zero, and floats are modelled as exact rationals. -/
def pyDiv (num den : Int) : Except PyErr ℚ :=
  if den = 0 then Except.error PyErr.zeroDivisionError
  else Except.ok ((num : ℚ) / (den : ℚ))

/-- A GPS rational triple as stored in an EXIF tag: degrees, minutes, seconds. -/
structure RationalTriple where
  degrees : ExifRational
  minutes : ExifRational
  seconds : ExifRational
  deriving DecidableEq

/-- Embedding of to_decimal, tagger.py lines 20 to 25: divide each rational, take
decimal = d + m / 60 + s / 3600, and negate when the reference is S or W.  The list
comprehension evaluates the three divisions in order, so the first zero denominator
raises. -/
def to_decimal (values : RationalTriple) (ref : String) : Except PyErr ℚ := do
  let d ← pyDiv values.degrees.num values.degrees.den
  let m ← pyDiv values.minutes.num values.minutes.den
  let s ← pyDiv values.seconds.num values.seconds.den
  let decimal := d + m / 60 + s / 3600
  if ref = "S" ∨ ref = "W" then return -decimal else return decimal

/-- Embedding of get_decimal_coords, tagger.py lines 18 to 29: decode the latitude
triple and then the longitude triple. -/
def get_decimal_coords (lat : RationalTriple) (latRef : String)
    (lon : RationalTriple) (lonRef : String) : Except PyErr (ℚ × ℚ) := do
  let la ← to_decimal lat latRef
  let lo ← to_decimal lon lonRef
  return (la, lo)

/-- Python truthiness of an optional string: None and the empty string are falsy. -/
def truthy : Option String → Bool
  | none => false
  | some s => s != ""

/-- Python or on optional strings: the left operand when truthy, otherwise the right. -/
def pyOr (a b : Option String) : Option String :=
  if truthy a then a else b

/-- The optional address fields used by get_location_string, as read from the raw
reverse-geocoding response with dict.get (absent key gives None). -/
structure Address where
  city : Option String
  town : Option String
  village : Option String
  municipality : Option String
  state : Option String
  country : Option String
  deriving DecidableEq

/-- The recognized United States country-name variants, tagger.py line 51. -/
def usVariants : List String := ["United States", "USA", "United States of America"]

/-- Embedding of the membership test on line 51: country in the list of United States
variants; None is in no list. -/
def isUS (country : Option String) : Bool :=
  match country with
  | some c => usVariants.contains c
  | none => false

/-- Embedding of the formatting part of get_location_string, tagger.py lines 46 to 60:
locality chosen by the or-chain city, town, village, municipality; then the two-branch
United States / other country policy. -/
def format_address (addr : Address) : String :=
  let city := pyOr (pyOr (pyOr addr.city addr.town) addr.village) addr.municipality
  let state := addr.state
  let country := addr.country
  if isUS country then
    if truthy city && truthy state then city.getD "" ++ ", " ++ state.getD ""
    else if truthy state then state.getD ""
    else "USA"
  else if truthy city && truthy country then city.getD "" ++ ", " ++ country.getD ""
  else if truthy country then country.getD ""
  else "Unknown"

/-- Locality selection as the specification words it: the first present field in the
precedence order city, town, village, municipality, where present means Python-truthy,
a value that is there and non-empty. -/
def specLocality (addr : Address) : Option String :=
  if truthy addr.city then addr.city
  else if truthy addr.town then addr.town
  else if truthy addr.village then addr.village
  else if truthy addr.municipality then addr.municipality
  else none

/-- The formatting policy as the specification words it, for comparison with
format_address: United States branch gives city comma state, else state, else USA;
the other branch gives city comma country, else country, else Unknown. -/
def spec_format (addr : Address) : String :=
  let city := specLocality addr
  if isUS addr.country then
    if truthy city && truthy addr.state then city.getD "" ++ ", " ++ addr.state.getD ""
    else if truthy addr.state then addr.state.getD ""
    else "USA"
  else if truthy city && truthy addr.country then city.getD "" ++ ", " ++ addr.country.getD ""
  else if truthy addr.country then addr.country.getD ""
  else "Unknown"

/-- Result of one geolocator.reverse attempt: an exception from the network client, or
a returned value, which is either None (no match) or a location carrying an address. -/
inductive GeoAttempt where
  | raises
  | answers (loc : Option Address)
  deriving DecidableEq

/-- State after the retry loop of get_location_string: the location variable, which is
none while never assigned, the number of geocoding calls made, and the number of
2-second sleeps performed. -/
structure GeoTrace where
  location : Option (Option Address)
  calls : Nat
  sleeps : Nat
  deriving DecidableEq

/-- Embedding of the loop for i in range(2), tagger.py lines 34 to 40: every iteration
constructs a geolocator and calls reverse; on an exception it logs and sleeps 2 seconds;
there is no break after a success, and the location variable is assigned only by a
successful call. -/
def geo_loop (attempt : Nat → GeoAttempt) : GeoTrace :=
  let step := fun (st : GeoTrace) (i : Nat) =>
    match attempt i with
    | GeoAttempt.raises => GeoTrace.mk st.location (st.calls + 1) (st.sleeps + 1)
    | GeoAttempt.answers loc => GeoTrace.mk (some loc) (st.calls + 1) st.sleeps
  step (step (GeoTrace.mk none 0 0) 0) 1

/-- Embedding of get_location_string, tagger.py lines 32 to 60: run the retry loop, then
read the location variable, which raises UnboundLocalError when no attempt ever
returned; a None location gives no place string, and otherwise the address is
formatted. -/
def get_location_string (attempt : Nat → GeoAttempt) : Except PyErr (Option String) :=
  let tr := geo_loop attempt
  match tr.location with
  | none => Except.error PyErr.unboundLocal
  | some none => Except.ok none
  | some (some addr) => Except.ok (some (format_address addr))

/-- Python int() applied to a float value, modelled on exact rationals.  int() truncates
toward zero; every value it is applied to in this development is nonnegative, where
truncation and floor agree. -/
def pyInt (q : ℚ) : Int := q.floor

/-- Geometry produced by fit_to_16_9: canvas size, scaled-image size, paste offsets, and
the solid fill colour of the canvas. -/
structure FitResult where
  canvasW : Int
  canvasH : Int
  newW : Int
  newH : Int
  xOff : Int
  yOff : Int
  fill : Int × Int × Int
  deriving DecidableEq

/-- Embedding of fit_to_16_9, tagger.py lines 83 to 111: the canvas is min(width,
max_width) wide and int(canvas_width / (16/9)) tall; an image wider than 16:9 is fitted
to the canvas width, otherwise to the canvas height; the resized image is pasted onto a
black canvas at offsets given by Python floor division of the slack by 2.  The callers
in this repository always use max_width = 1920. -/
def fit_to_16_9 (w h maxWidth : Int) : FitResult :=
  let targetRatio : ℚ := 16 / 9
  let imgRatio : ℚ := (w : ℚ) / (h : ℚ)
  let canvasW := min w maxWidth
  let canvasH := pyInt ((canvasW : ℚ) / targetRatio)
  let nwnh : Int × Int :=
    if imgRatio > targetRatio then (canvasW, pyInt ((canvasW : ℚ) / imgRatio))
    else (pyInt ((canvasH : ℚ) * imgRatio), canvasH)
  let xOff := Int.fdiv (canvasW - nwnh.1) 2
  let yOff := Int.fdiv (canvasH - nwnh.2) 2
  FitResult.mk canvasW canvasH nwnh.1 nwnh.2 xOff yOff (0, 0, 0)

/-- Embedding of the caption font size, tagger.py line 141: max(16, width over 30) with
Python floor division on nonnegative ints. -/
def font_size (canvasW : Nat) : Nat := max 16 (canvasW / 30)

/-- A loaded font: the Helvetica truetype file at a pixel size, or the default embedded
bitmap font of the imaging library. -/
inductive Font where
  | truetype (path : String) (size : Nat)
  | defaultFont
  deriving DecidableEq

/-- Embedding of the font loading try and except, tagger.py lines 142 to 145: the
platform font file when it is available, otherwise the default font. -/
def load_font (helveticaAvailable : Bool) (size : Nat) : Font :=
  if helveticaAvailable then Font.truetype "/System/Library/Fonts/Helvetica.ttc" size
  else Font.defaultFont

/-- A text bounding box as returned by textbbox measured at origin (0, 0). -/
structure BBox where
  x0 : Int
  y0 : Int
  x1 : Int
  y1 : Int
  deriving DecidableEq

/-- One draw.text call: anchor position and RGBA fill. -/
structure DrawCall where
  x : Int
  y : Int
  fill : Int × Int × Int × Int
  deriving DecidableEq

/-- Embedding of the caption placement and the two draw.text calls, tagger.py lines 147
to 155: the anchor puts the measured text extent 30 pixels from the bottom-right canvas
corner; the shadow is drawn first at offset (+2, +2) in translucent black, then the
foreground at the anchor in opaque white. -/
def caption_draw_calls (canvasW canvasH : Int) (bbox : BBox) : List DrawCall :=
  let padding : Int := 30
  let textW := bbox.x1 - bbox.x0
  let textH := bbox.y1 - bbox.y0
  let x := canvasW - textW - padding
  let y := canvasH - textH - padding
  [DrawCall.mk (x + 2) (y + 2) (0, 0, 0, 200), DrawCall.mk x y (255, 255, 255, 255)]

/-- Model of a pathlib path: parent directory, stem, and suffix including the dot. -/
structure PyPath where
  parent : String
  stem : String
  suffix : String
  deriving DecidableEq

/-- Joining with the slash operator of pathlib. -/
def pjoin (dir name : String) : String :=
  dir ++ "/" ++ name

/-- The string form of a path. -/
def PyPath.str (p : PyPath) : String := pjoin p.parent (p.stem ++ p.suffix)

/-- Filesystem effects performed by the tagging operation, in order. -/
inductive FSOp where
  | mkdirAll (dir : String)
  | writeFile (path : String)
  deriving DecidableEq

/-- The metadata get_exif_data produces for an image: an optional place string and an
optional capture timestamp.  A datetime object is always truthy, so only the presence
of the timestamp matters; it is kept abstract as its formatted text. -/
structure CaptureMetadata where
  location : Option String
  captureTime : Option String
  deriving DecidableEq

/-- Outcome of overlay_text: None returned when no usable metadata was found, or the
path the composited image was saved to. -/
inductive TagOutcome where
  | noData
  | saved (outputPath : String)
  deriving DecidableEq

/-- Embedding of the control flow of overlay_text, tagger.py lines 114 to 169, with the
metadata extraction result passed in as a parameter, since EXIF parsing and geocoding
are external.  Returns the outcome together with the ordered filesystem effects: when
metadata is present, an explicit output path wins; otherwise a given output directory
is created and receives stem_tagged.png; otherwise the sibling stem_tagged plus the
original suffix is used.  Nothing is written when both metadata fields are absent. -/
def overlay_text (meta : CaptureMetadata) (imagePath : PyPath)
    (outputPath : Option String) (outputDir : Option String) : TagOutcome × List FSOp :=
  if !truthy meta.location && meta.captureTime.isNone then (TagOutcome.noData, [])
  else
    match outputPath with
    | some out => (TagOutcome.saved out, [FSOp.writeFile out])
    | none =>
      match outputDir with
      | some d =>
        let out := pjoin d (imagePath.stem ++ "_tagged.png")
        (TagOutcome.saved out, [FSOp.mkdirAll d, FSOp.writeFile out])
      | none =>
        let out := pjoin imagePath.parent (imagePath.stem ++ "_tagged" ++ imagePath.suffix)
        (TagOutcome.saved out, [FSOp.writeFile out])

/-- Embedding of is_tagged, tagger.py lines 182 to 187: the tag-state marker is the
existence of tagged/stem_tagged.png inside the tagged subdirectory of the source
folder, checked against the current set of files. -/
def is_tagged (fs : List String) (p : PyPath) : Bool :=
  fs.contains (pjoin (pjoin p.parent "tagged") (p.stem ++ "_tagged.png"))

/-- Effect of a list of filesystem operations on the set of existing files; creating a
directory adds no file. -/
def applyOps (fs : List String) (ops : List FSOp) : List String :=
  ops.foldl
    (fun acc op =>
      match op with
      | FSOp.mkdirAll _ => acc
      | FSOp.writeFile p => p :: acc)
    fs

/-- Status field of the JSON response of the tag route. -/
inductive TagStatus where
  | success
  | skipped
  | error
  deriving DecidableEq

/-- The JSON response of the tag route: a status and a human-readable message. -/
structure TagResponse where
  status : TagStatus
  message : String
  deriving DecidableEq

/-- Embedding of api_tag_image, app.py lines 104 to 172: report an error when the source
file does not exist, skip when the tagged marker already exists, and otherwise run
overlay_text with the tagged subdirectory as the output directory, mapping its outcome
to a skipped or success response.  The metadata the extractor would produce for this
image is a parameter.  Returns the response and the resulting set of files. -/
def api_tag_image (fs : List String) (folder stem suffix : String)
    (meta : CaptureMetadata) : TagResponse × List String :=
  let imagePath : PyPath := PyPath.mk folder stem suffix
  if !(fs.contains imagePath.str) then
    (TagResponse.mk TagStatus.error ("File not found: " ++ imagePath.str), fs)
  else if is_tagged fs imagePath then
    (TagResponse.mk TagStatus.skipped "Already tagged", fs)
  else
    let taggedDir := pjoin folder "tagged"
    let result := overlay_text meta imagePath none (some taggedDir)
    match result.1 with
    | TagOutcome.noData =>
      (TagResponse.mk TagStatus.skipped "No EXIF location or time data found", fs)
    | TagOutcome.saved _ =>
      (TagResponse.mk TagStatus.success "Tagged successfully", applyOps fs result.2)

/-! Shared helper lemmas. -/

theorem pyInt_eq (q : ℚ) : pyInt q = ⌊q⌋ := by
  rw [pyInt, Rat.floor_def', Rat.floor_def]

theorem fit_canvasW (w h mw : Int) : (fit_to_16_9 w h mw).canvasW = min w mw := rfl

theorem fit_canvasH (w h mw : Int) :
    (fit_to_16_9 w h mw).canvasH = pyInt (((min w mw : Int) : ℚ) / (16 / 9)) := rfl

theorem fit_xOff (w h mw : Int) :
    (fit_to_16_9 w h mw).xOff
      = Int.fdiv ((fit_to_16_9 w h mw).canvasW - (fit_to_16_9 w h mw).newW) 2 := rfl

theorem fit_yOff (w h mw : Int) :
    (fit_to_16_9 w h mw).yOff
      = Int.fdiv ((fit_to_16_9 w h mw).canvasH - (fit_to_16_9 w h mw).newH) 2 := rfl

theorem fit_fill (w h mw : Int) : (fit_to_16_9 w h mw).fill = (0, 0, 0) := rfl

theorem fit_new_wide (w h mw : Int) (hr : ((w : ℚ) / (h : ℚ)) > 16 / 9) :
    (fit_to_16_9 w h mw).newW = min w mw ∧
    (fit_to_16_9 w h mw).newH = pyInt (((min w mw : Int) : ℚ) / ((w : ℚ) / (h : ℚ))) := by
  constructor <;> simp only [fit_to_16_9, if_pos hr]

theorem fit_new_tall (w h mw : Int) (hr : ¬(((w : ℚ) / (h : ℚ)) > 16 / 9)) :
    (fit_to_16_9 w h mw).newW
      = pyInt ((pyInt (((min w mw : Int) : ℚ) / (16 / 9)) : ℚ) * ((w : ℚ) / (h : ℚ))) ∧
    (fit_to_16_9 w h mw).newH = pyInt (((min w mw : Int) : ℚ) / (16 / 9)) := by
  constructor <;> simp only [fit_to_16_9, if_neg hr]

theorem fit_canvasH_nonneg (w h mw : Int) (hw : 0 < w) (hmw : 0 < mw) :
    0 ≤ (fit_to_16_9 w h mw).canvasH := by
  rw [fit_canvasH, pyInt_eq]
  have hcwQ : (0 : ℚ) ≤ ((min w mw : Int) : ℚ) := by
    exact_mod_cast le_min hw.le hmw.le
  exact Int.floor_nonneg.2 (div_nonneg hcwQ (by norm_num))

theorem fit_new_le (w h mw : Int) (hw : 0 < w) (hh : 0 < h) (hmw : 0 < mw) :
    (fit_to_16_9 w h mw).newW ≤ (fit_to_16_9 w h mw).canvasW ∧
    (fit_to_16_9 w h mw).newH ≤ (fit_to_16_9 w h mw).canvasH := by
  have hcwQ : (0 : ℚ) ≤ ((min w mw : Int) : ℚ) := by
    exact_mod_cast le_min hw.le hmw.le
  have htr : (0 : ℚ) < 16 / 9 := by norm_num
  by_cases hr : ((w : ℚ) / (h : ℚ)) > 16 / 9
  · obtain ⟨hnw, hnh⟩ := fit_new_wide w h mw hr
    rw [fit_canvasW, fit_canvasH, hnw, hnh]
    refine ⟨le_refl _, ?_⟩
    rw [pyInt_eq, pyInt_eq]
    apply Int.floor_mono
    gcongr
  · obtain ⟨hnw, hnh⟩ := fit_new_tall w h mw hr
    push_neg at hr
    rw [fit_canvasW, fit_canvasH, hnw, hnh]
    refine ⟨?_, le_refl _⟩
    have hratio0 : (0 : ℚ) ≤ (w : ℚ) / (h : ℚ) := by positivity
    have hchQ : ((pyInt (((min w mw : Int) : ℚ) / (16 / 9)) : Int) : ℚ)
        ≤ ((min w mw : Int) : ℚ) / (16 / 9) := by
      rw [pyInt_eq]; exact Int.floor_le _
    have hmul : ((pyInt (((min w mw : Int) : ℚ) / (16 / 9)) : Int) : ℚ) * ((w : ℚ) / (h : ℚ))
        ≤ ((min w mw : Int) : ℚ) := by
      calc ((pyInt (((min w mw : Int) : ℚ) / (16 / 9)) : Int) : ℚ) * ((w : ℚ) / (h : ℚ))
          ≤ (((min w mw : Int) : ℚ) / (16 / 9)) * (16 / 9) :=
            mul_le_mul hchQ hr hratio0 (div_nonneg hcwQ htr.le)
        _ = ((min w mw : Int) : ℚ) := div_mul_cancel₀ _ (by norm_num)
    rw [pyInt_eq]
    calc ⌊((pyInt (((min w mw : Int) : ℚ) / (16 / 9)) : Int) : ℚ) * ((w : ℚ) / (h : ℚ))⌋
        ≤ ⌊((min w mw : Int) : ℚ)⌋ := Int.floor_mono hmul
      _ = min w mw := Int.floor_intCast _

theorem fdiv_two_nonneg {a : Int} (h : 0 ≤ a) : 0 ≤ Int.fdiv a 2 :=
  Int.fdiv_nonneg h (by norm_num)

theorem fdiv_two_le {a : Int} (h : 0 ≤ a) : Int.fdiv a 2 ≤ a := by
  rw [Int.fdiv_eq_ediv _ (by norm_num)]
  exact Int.ediv_le_self 2 h

theorem fdiv_two_rem (a : Int) :
    a - 2 * Int.fdiv a 2 = 0 ∨ a - 2 * Int.fdiv a 2 = 1 := by
  rw [Int.fdiv_eq_ediv _ (by norm_num)]
  omega

theorem truthy_none : truthy none = false := rfl

/-- Evaluation of the letterboxing geometry on a 4000 by 2000 source: the ratio 2 is
wider than 16:9, so the image is fitted to the canvas width, giving a 1920 by 960
scaled image on a 1920 by 1080 canvas with 60-pixel bars above and below. -/
theorem fit_eval_wide_example :
    fit_to_16_9 4000 2000 1920 = FitResult.mk 1920 1080 1920 960 0 60 (0, 0, 0) := by
  have h1 : pyInt (1080 : ℚ) = 1080 := by
    rw [pyInt_eq, Int.floor_eq_iff]
    norm_num
  have h2 : pyInt (960 : ℚ) = 960 := by
    rw [pyInt_eq, Int.floor_eq_iff]
    norm_num
  simp only [fit_to_16_9]
  norm_num
  rw [h1, h2]
  decide

/-- Evaluation of the letterboxing geometry on a 1000 by 2000 portrait source: the
image is fitted to the canvas height 562, giving a 281-pixel-wide scaled image pasted
at horizontal offset 359, so the left bar is 359 pixels and the right bar 360. -/
theorem fit_eval_tall_example :
    fit_to_16_9 1000 2000 1920 = FitResult.mk 1000 562 281 562 359 0 (0, 0, 0) := by
  have h1 : pyInt ((1125 : ℚ) / 2) = 562 := by
    rw [pyInt_eq, Int.floor_eq_iff]
    norm_num
  have h2 : pyInt (((562 : Int) : ℚ) * (1 / 2)) = 281 := by
    rw [pyInt_eq, Int.floor_eq_iff]
    norm_num
  simp only [fit_to_16_9]
  norm_num
  rw [h1, h2]
  decide

/-! Claim theorems. -/

/-- C1: for every GPS rational triple with non-zero denominators and any hemisphere
reference, to_decimal returns degrees + minutes/60 + seconds/3600, negated exactly when
the reference is S or W; in particular the triple (40, 26, 46) with reference N decodes
to 72803/1800, which is within 0.0001 of 40.4461, and with reference S to the negation,
within 0.0001 of -40.4461. -/
theorem to_decimal_correct (t : RationalTriple) (ref : String)
    (hd : t.degrees.den ≠ 0) (hm : t.minutes.den ≠ 0) (hs : t.seconds.den ≠ 0) :
    (to_decimal t ref =
      Except.ok
        (if ref = "S" ∨ ref = "W" then
          -((t.degrees.num : ℚ) / (t.degrees.den : ℚ)
            + ((t.minutes.num : ℚ) / (t.minutes.den : ℚ)) / 60
            + ((t.seconds.num : ℚ) / (t.seconds.den : ℚ)) / 3600)
        else
          (t.degrees.num : ℚ) / (t.degrees.den : ℚ)
            + ((t.minutes.num : ℚ) / (t.minutes.den : ℚ)) / 60
            + ((t.seconds.num : ℚ) / (t.seconds.den : ℚ)) / 3600)) ∧
    to_decimal (RationalTriple.mk (ExifRational.mk 40 1) (ExifRational.mk 26 1)
        (ExifRational.mk 46 1)) "N" = Except.ok (72803 / 1800) ∧
    |(72803 : ℚ) / 1800 - 404461 / 10000| < 1 / 10000 ∧
    to_decimal (RationalTriple.mk (ExifRational.mk 40 1) (ExifRational.mk 26 1)
        (ExifRational.mk 46 1)) "S" = Except.ok (-(72803 / 1800)) ∧
    |(-(72803 : ℚ) / 1800) + 404461 / 10000| < 1 / 10000 := by
  refine ⟨?_, ?_, by norm_num [abs_lt], ?_, by norm_num [abs_lt]⟩
  · unfold to_decimal pyDiv
    rw [if_neg hd, if_neg hm, if_neg hs]
    show (if ref = "S" ∨ ref = "W" then _ else _ : Except PyErr ℚ) = _
    split_ifs <;> rfl
  · show Except.ok _ = _
    norm_num [to_decimal, pyDiv]
  · show Except.ok _ = _
    norm_num [to_decimal, pyDiv]

/-- Witness for C1: the decoder applied to the triple (40, 26, 46) with reference S,
with every denominator equal to one, returns exactly -(72803/1800). -/
theorem to_decimal_correct_witness :
    to_decimal (RationalTriple.mk (ExifRational.mk 40 1) (ExifRational.mk 26 1)
      (ExifRational.mk 46 1)) "S" = Except.ok (-(72803 / 1800)) := by
  have h := to_decimal_correct
    (RationalTriple.mk (ExifRational.mk 40 1) (ExifRational.mk 26 1) (ExifRational.mk 46 1))
    "S" (by decide) (by decide) (by decide)
  exact h.2.2.2.1

/-- C2: the formatting part of get_location_string agrees everywhere with the
specification policy, United States variants giving city comma state, else the state,
else USA, and other countries giving city comma country, else the country, else
Unknown, with locality precedence city, town, village, municipality; the four worked
examples of the specification evaluate as stated. -/
theorem format_matches_spec :
    (∀ addr : Address, format_address addr = spec_format addr) ∧
    format_address (Address.mk (some "Springfield") none none none (some "Illinois")
      (some "United States")) = "Springfield, Illinois" ∧
    format_address (Address.mk none none none none none (some "United States")) = "USA" ∧
    format_address (Address.mk (some "Paris") none none none none (some "France"))
      = "Paris, France" ∧
    format_address (Address.mk none none none none none none) = "Unknown" := by
  refine ⟨?_, rfl, rfl, rfl, rfl⟩
  intro addr
  obtain ⟨c, t, v, m, st, co⟩ := addr
  simp only [format_address, spec_format, specLocality, pyOr]
  by_cases hc : truthy c <;> by_cases ht : truthy t <;> by_cases hv : truthy v <;>
    by_cases hm : truthy m <;> simp [hc, ht, hv, hm, truthy_none]

/-- C3: the retry loop of get_location_string does not behave as the claim states.
When both geocoding attempts raise, the location variable is never assigned, so reading
it after the loop raises UnboundLocalError instead of resolving to an absent place; the
loop performs two sleeps but also always performs exactly two geocoding calls, even
when the first attempt succeeds, so the second call is not a retry gated on failure;
when only the first attempt succeeds, the location read after the loop is the first
attempt's stale result. -/
theorem geo_loop_bug :
    get_location_string (fun _ => GeoAttempt.raises) = Except.error PyErr.unboundLocal ∧
    (geo_loop (fun _ => GeoAttempt.raises)).calls = 2 ∧
    (geo_loop (fun _ => GeoAttempt.raises)).sleeps = 2 ∧
    (geo_loop (fun _ => GeoAttempt.answers
      (some (Address.mk none none none none none none)))).calls = 2 ∧
    (geo_loop (fun i => if i = 0 then GeoAttempt.answers
        (some (Address.mk none none none none none none)) else GeoAttempt.raises)).location
      = some (some (Address.mk none none none none none none)) := by
  exact ⟨rfl, rfl, rfl, rfl, rfl⟩

/-- Counterexample for C4: a zero denominator in the degrees slot makes to_decimal
raise the raw Python ZeroDivisionError, uncaught by the decoder; there is no dedicated
decode failure in the code, so the claim that it fails with a DecodeFailure and never
raises a raw division error is false. -/
theorem to_decimal_zero_den_counterexample :
    to_decimal (RationalTriple.mk (ExifRational.mk 40 0) (ExifRational.mk 26 1)
      (ExifRational.mk 46 1)) "N" = Except.error PyErr.zeroDivisionError := rfl

/-- C4 as amended: for every GPS rational triple containing a zero denominator, the
decoder raises ZeroDivisionError and never produces a value, in particular never an
infinite one. -/
theorem to_decimal_zero_den (t : RationalTriple) (ref : String)
    (h : t.degrees.den = 0 ∨ t.minutes.den = 0 ∨ t.seconds.den = 0) :
    to_decimal t ref = Except.error PyErr.zeroDivisionError ∧
    ∀ q : ℚ, to_decimal t ref ≠ Except.ok q := by
  have hmain : to_decimal t ref = Except.error PyErr.zeroDivisionError := by
    unfold to_decimal pyDiv
    by_cases hd : t.degrees.den = 0
    · rw [if_pos hd]; rfl
    · by_cases hm : t.minutes.den = 0
      · rw [if_neg hd, if_pos hm]; rfl
      · have hs : t.seconds.den = 0 := by tauto
        rw [if_neg hd, if_neg hm, if_pos hs]; rfl
  refine ⟨hmain, fun q hq => ?_⟩
  rw [hmain] at hq
  exact Except.noConfusion hq

/-- Witness for C4 as amended: a zero denominator in the minutes slot raises
ZeroDivisionError. -/
theorem to_decimal_zero_den_witness :
    to_decimal (RationalTriple.mk (ExifRational.mk 1 1) (ExifRational.mk 2 0)
      (ExifRational.mk 3 1)) "E" = Except.error PyErr.zeroDivisionError := by
  exact (to_decimal_zero_den
    (RationalTriple.mk (ExifRational.mk 1 1) (ExifRational.mk 2 0) (ExifRational.mk 3 1))
    "E" (Or.inr (Or.inl rfl))).1

/-- Counterexample for C5: fitting a 4000 by 2000 source into a 1920-wide canvas
scales the image to 1920 by 960, not 1920 by 1080, and leaves 60-pixel letterbox bars
above and below rather than none; and the 1000 by 2000 portrait source gets left and
right bars of 359 and 360 pixels, which are not equal. -/
theorem fit_examples_counterexample :
    (fit_to_16_9 4000 2000 1920).newH = 960 ∧
    ¬((fit_to_16_9 4000 2000 1920).newH = 1080) ∧
    (fit_to_16_9 4000 2000 1920).yOff = 60 ∧
    ¬((fit_to_16_9 4000 2000 1920).yOff = 0) ∧
    (fit_to_16_9 1000 2000 1920).xOff = 359 ∧
    (fit_to_16_9 1000 2000 1920).canvasW - (fit_to_16_9 1000 2000 1920).newW
      - (fit_to_16_9 1000 2000 1920).xOff = 360 ∧
    ¬((fit_to_16_9 1000 2000 1920).xOff
      = (fit_to_16_9 1000 2000 1920).canvasW - (fit_to_16_9 1000 2000 1920).newW
        - (fit_to_16_9 1000 2000 1920).xOff) := by
  rw [fit_eval_wide_example, fit_eval_tall_example]
  refine ⟨rfl, by decide, rfl, by decide, rfl, by decide, by decide⟩

/-- C5 as amended: for every source image with positive dimensions the canvas is
min(width, 1920) wide and width times 9/16 truncated tall, filled black, with the
scaled image pasted at nonnegative offsets that split each slack into two bars
differing by at most one pixel; the 4000 by 2000 source yields canvas 1920 by 1080
with scaled image 1920 by 960 and 60-pixel bars above and below, and the 1000 by 2000
portrait is letterboxed left and right with bars of 359 and 360 pixels. -/
theorem fit_canvas_spec (w h : Int) (hw : 0 < w) (hh : 0 < h) :
    (fit_to_16_9 w h 1920).canvasW = min w 1920 ∧
    (fit_to_16_9 w h 1920).canvasH = ⌊((min w 1920 : Int) : ℚ) * (9 / 16)⌋ ∧
    (fit_to_16_9 w h 1920).fill = (0, 0, 0) ∧
    0 ≤ (fit_to_16_9 w h 1920).xOff ∧
    0 ≤ (fit_to_16_9 w h 1920).yOff ∧
    (((fit_to_16_9 w h 1920).canvasW - (fit_to_16_9 w h 1920).newW
        - (fit_to_16_9 w h 1920).xOff) - (fit_to_16_9 w h 1920).xOff = 0 ∨
      ((fit_to_16_9 w h 1920).canvasW - (fit_to_16_9 w h 1920).newW
        - (fit_to_16_9 w h 1920).xOff) - (fit_to_16_9 w h 1920).xOff = 1) ∧
    (((fit_to_16_9 w h 1920).canvasH - (fit_to_16_9 w h 1920).newH
        - (fit_to_16_9 w h 1920).yOff) - (fit_to_16_9 w h 1920).yOff = 0 ∨
      ((fit_to_16_9 w h 1920).canvasH - (fit_to_16_9 w h 1920).newH
        - (fit_to_16_9 w h 1920).yOff) - (fit_to_16_9 w h 1920).yOff = 1) ∧
    fit_to_16_9 4000 2000 1920 = FitResult.mk 1920 1080 1920 960 0 60 (0, 0, 0) ∧
    fit_to_16_9 1000 2000 1920 = FitResult.mk 1000 562 281 562 359 0 (0, 0, 0) := by
  obtain ⟨hnw, hnh⟩ := fit_new_le w h 1920 hw hh (by norm_num)
  have hx0 : 0 ≤ (fit_to_16_9 w h 1920).canvasW - (fit_to_16_9 w h 1920).newW := by omega
  have hy0 : 0 ≤ (fit_to_16_9 w h 1920).canvasH - (fit_to_16_9 w h 1920).newH := by omega
  refine ⟨fit_canvasW w h 1920, ?_, fit_fill w h 1920, ?_, ?_, ?_, ?_,
    fit_eval_wide_example, fit_eval_tall_example⟩
  · rw [fit_canvasH, pyInt_eq]
    congr 1
    ring
  · rw [fit_xOff]
    exact fdiv_two_nonneg hx0
  · rw [fit_yOff]
    exact fdiv_two_nonneg hy0
  · have := fdiv_two_rem ((fit_to_16_9 w h 1920).canvasW - (fit_to_16_9 w h 1920).newW)
    rw [fit_xOff]
    omega
  · have := fdiv_two_rem ((fit_to_16_9 w h 1920).canvasH - (fit_to_16_9 w h 1920).newH)
    rw [fit_yOff]
    omega

/-- Witness for C5 as amended: at the 4000 by 2000 source both positivity hypotheses
hold and the canvas width and horizontal offset facts follow. -/
theorem fit_canvas_spec_witness :
    (fit_to_16_9 4000 2000 1920).canvasW = min 4000 1920 ∧
    0 ≤ (fit_to_16_9 4000 2000 1920).xOff := by
  have h := fit_canvas_spec 4000 2000 (by norm_num) (by norm_num)
  exact ⟨h.1, h.2.2.2.1⟩

/-- C6: with both metadata fields absent the tag route skips without touching the
filesystem, but its message is capitalized: the response reads No EXIF location or
time data found, which differs from the lowercase message the claim quotes. -/
theorem skip_message_counterexample :
    (api_tag_image ["/photos/img.jpg"] "/photos" "img" ".jpg" (CaptureMetadata.mk none none)).1
      = TagResponse.mk TagStatus.skipped "No EXIF location or time data found" ∧
    (api_tag_image ["/photos/img.jpg"] "/photos" "img" ".jpg" (CaptureMetadata.mk none none)).2
      = ["/photos/img.jpg"] ∧
    "No EXIF location or time data found" ≠ "no EXIF location or time data found" := by
  exact ⟨rfl, rfl, by decide⟩

/-- C6 as amended: for every invocation whose extracted metadata has both place and
timestamp absent, on an existing and not-yet-tagged source, the tag route returns a
skipped result with the capitalized message No EXIF location or time data found and
leaves the set of files unchanged: nothing is written. -/
theorem tag_no_metadata_skips (fs : List String) (folder st sf : String)
    (hexists : fs.contains (PyPath.str (PyPath.mk folder st sf)) = true)
    (hmarker : is_tagged fs (PyPath.mk folder st sf) = false) :
    api_tag_image fs folder st sf (CaptureMetadata.mk none none)
      = (TagResponse.mk TagStatus.skipped "No EXIF location or time data found", fs) := by
  have hmem : PyPath.str (PyPath.mk folder st sf) ∈ fs := by
    simpa using hexists
  simp [api_tag_image, hmarker, overlay_text, truthy, hmem]

/-- Witness for C6 as amended: a concrete one-file filesystem with metadata-free
extraction result skips and stays unchanged. -/
theorem tag_no_metadata_skips_witness :
    api_tag_image ["/photos/img.jpg"] "/photos" "img" ".jpg" (CaptureMetadata.mk none none)
      = (TagResponse.mk TagStatus.skipped "No EXIF location or time data found",
         ["/photos/img.jpg"]) := by
  exact tag_no_metadata_skips ["/photos/img.jpg"] "/photos" "img" ".jpg" (by decide) (by decide)

/-- C7: whenever metadata is present so that a file is written, an explicit output path
wins; otherwise a given output directory is created and receives stem_tagged.png; and
with neither, the output is the sibling stem_tagged with the original extension. -/
theorem output_path_priority (meta : CaptureMetadata) (p : PyPath) (od : Option String)
    (hmeta : truthy meta.location = true ∨ meta.captureTime ≠ none) :
    (∀ out : String, overlay_text meta p (some out) od
      = (TagOutcome.saved out, [FSOp.writeFile out])) ∧
    (∀ d : String, overlay_text meta p none (some d)
      = (TagOutcome.saved (pjoin d (p.stem ++ "_tagged.png")),
         [FSOp.mkdirAll d, FSOp.writeFile (pjoin d (p.stem ++ "_tagged.png"))])) ∧
    overlay_text meta p none none
      = (TagOutcome.saved (pjoin p.parent (p.stem ++ "_tagged" ++ p.suffix)),
         [FSOp.writeFile (pjoin p.parent (p.stem ++ "_tagged" ++ p.suffix))]) := by
  have hguard : (!truthy meta.location && meta.captureTime.isNone) = false := by
    rcases hmeta with h | h
    · simp [h]
    · have hn : meta.captureTime.isNone = false := by
        cases hcap : meta.captureTime with
        | none => exact absurd hcap h
        | some v => rfl
      rw [hn, Bool.and_false]
  refine ⟨fun out => ?_, fun d => ?_, ?_⟩ <;> simp [overlay_text, hguard]

/-- Witness for C7: directory mode with a present place string creates the directory
and writes img_tagged.png inside it. -/
theorem output_path_priority_witness :
    overlay_text (CaptureMetadata.mk (some "Tokyo, Japan") none)
        (PyPath.mk "/photos" "img" ".jpg") none (some "/photos/tagged")
      = (TagOutcome.saved "/photos/tagged/img_tagged.png",
         [FSOp.mkdirAll "/photos/tagged", FSOp.writeFile "/photos/tagged/img_tagged.png"]) := by
  have h := output_path_priority (CaptureMetadata.mk (some "Tokyo, Japan") none)
    (PyPath.mk "/photos" "img" ".jpg") (some "/photos/tagged") (Or.inl (by decide))
  exact h.2.1 "/photos/tagged"

/-- C8: after any successful directory-mode tagging, the marker file
tagged/stem_tagged.png exists, so a second invocation on the same source returns the
skipped response Already tagged and leaves the filesystem untouched, per the tag-state
marker rule embodied in is_tagged. -/
theorem tag_twice_skips (fs : List String) (folder st sf : String) (meta : CaptureMetadata)
    (hsuccess : (api_tag_image fs folder st sf meta).1.status = TagStatus.success) :
    (api_tag_image (api_tag_image fs folder st sf meta).2 folder st sf meta).1
      = TagResponse.mk TagStatus.skipped "Already tagged" ∧
    (api_tag_image (api_tag_image fs folder st sf meta).2 folder st sf meta).2
      = (api_tag_image fs folder st sf meta).2 ∧
    is_tagged (api_tag_image fs folder st sf meta).2 (PyPath.mk folder st sf) = true := by
  by_cases h1 : PyPath.str (PyPath.mk folder st sf) ∈ fs
  · by_cases h2 : is_tagged fs (PyPath.mk folder st sf) = true
    · exfalso
      simp [api_tag_image, h1, h2] at hsuccess
    · cases hB : (!truthy meta.location && meta.captureTime.isNone) with
      | true =>
        exfalso
        simp [api_tag_image, h1, h2, overlay_text, hB] at hsuccess
      | false =>
        have key : api_tag_image fs folder st sf meta
            = (TagResponse.mk TagStatus.success "Tagged successfully",
               pjoin (pjoin folder "tagged") (st ++ "_tagged.png") :: fs) := by
          simp [api_tag_image, h1, h2, overlay_text, hB, applyOps]
        rw [key]
        have hmarker : is_tagged
            (pjoin (pjoin folder "tagged") (st ++ "_tagged.png") :: fs)
            (PyPath.mk folder st sf) = true := by
          simp [is_tagged]
        refine ⟨?_, ?_, hmarker⟩ <;> simp [api_tag_image, hmarker, h1]
  · exfalso
    simp [api_tag_image, h1] at hsuccess

/-- Witness for C8: a concrete successful directory-mode run followed by a second run
that reports Already tagged. -/
theorem tag_twice_skips_witness :
    (api_tag_image (api_tag_image ["/p/a.jpg"] "/p" "a" ".jpg"
        (CaptureMetadata.mk (some "Tokyo, Japan") none)).2 "/p" "a" ".jpg"
        (CaptureMetadata.mk (some "Tokyo, Japan") none)).1
      = TagResponse.mk TagStatus.skipped "Already tagged" := by
  have h := tag_twice_skips ["/p/a.jpg"] "/p" "a" ".jpg"
    (CaptureMetadata.mk (some "Tokyo, Japan") none) (by rfl)
  exact h.1

/-- C9: the caption font size is max(16, canvas width over 30) with floor division,
loading falls back to the default font exactly when the Helvetica file is unavailable,
and the two draw calls place a shadow at offset (+2, +2) in translucent black before
the opaque white foreground, whose anchor puts the measured text extent exactly 30
pixels from the bottom-right canvas corner. -/
theorem caption_layout (w h : Int) (cw sz : Nat) (bbox : BBox) :
    font_size cw = max 16 (cw / 30) ∧
    load_font true sz = Font.truetype "/System/Library/Fonts/Helvetica.ttc" sz ∧
    load_font false sz = Font.defaultFont ∧
    ∃ x y : Int,
      caption_draw_calls w h bbox
        = [DrawCall.mk (x + 2) (y + 2) (0, 0, 0, 200), DrawCall.mk x y (255, 255, 255, 255)] ∧
      x + (bbox.x1 - bbox.x0) = w - 30 ∧
      y + (bbox.y1 - bbox.y0) = h - 30 := by
  refine ⟨rfl, rfl, rfl, w - (bbox.x1 - bbox.x0) - 30, h - (bbox.y1 - bbox.y0) - 30,
    rfl, by ring, by ring⟩

/-- C10: for every source with positive dimensions the canvas is exactly
(min(width, 1920), int of min(width, 1920) divided by 16/9) independently of the source
height, the scaled image never exceeds the canvas, and both paste offsets are
nonnegative with the scaled image lying entirely inside the canvas. -/
theorem fit_invariants (w h h2 : Int) (hw : 0 < w) (hh : 0 < h) (_hh2 : 0 < h2) :
    (fit_to_16_9 w h 1920).canvasW = min w 1920 ∧
    (fit_to_16_9 w h 1920).canvasH = pyInt (((min w 1920 : Int) : ℚ) / (16 / 9)) ∧
    (fit_to_16_9 w h2 1920).canvasW = (fit_to_16_9 w h 1920).canvasW ∧
    (fit_to_16_9 w h2 1920).canvasH = (fit_to_16_9 w h 1920).canvasH ∧
    (fit_to_16_9 w h 1920).newW ≤ (fit_to_16_9 w h 1920).canvasW ∧
    (fit_to_16_9 w h 1920).newH ≤ (fit_to_16_9 w h 1920).canvasH ∧
    0 ≤ (fit_to_16_9 w h 1920).xOff ∧
    0 ≤ (fit_to_16_9 w h 1920).yOff ∧
    (fit_to_16_9 w h 1920).xOff + (fit_to_16_9 w h 1920).newW
      ≤ (fit_to_16_9 w h 1920).canvasW ∧
    (fit_to_16_9 w h 1920).yOff + (fit_to_16_9 w h 1920).newH
      ≤ (fit_to_16_9 w h 1920).canvasH := by
  obtain ⟨hnw, hnh⟩ := fit_new_le w h 1920 hw hh (by norm_num)
  have hx0 : 0 ≤ (fit_to_16_9 w h 1920).canvasW - (fit_to_16_9 w h 1920).newW := by omega
  have hy0 : 0 ≤ (fit_to_16_9 w h 1920).canvasH - (fit_to_16_9 w h 1920).newH := by omega
  have hxle := fdiv_two_le hx0
  have hyle := fdiv_two_le hy0
  have hxnn := fdiv_two_nonneg hx0
  have hynn := fdiv_two_nonneg hy0
  rw [← fit_xOff] at hxle hxnn
  rw [← fit_yOff] at hyle hynn
  refine ⟨fit_canvasW w h 1920, fit_canvasH w h 1920, ?_, ?_, hnw, hnh, hxnn, hynn,
    by omega, by omega⟩
  · rw [fit_canvasW, fit_canvasW]
  · rw [fit_canvasH, fit_canvasH]

/-- Witness for C10: at the 1000 by 2000 portrait the positivity hypotheses hold and
the containment facts follow. -/
theorem fit_invariants_witness :
    (fit_to_16_9 1000 2000 1920).newW ≤ (fit_to_16_9 1000 2000 1920).canvasW ∧
    0 ≤ (fit_to_16_9 1000 2000 1920).xOff ∧
    (fit_to_16_9 1000 2000 1920).xOff + (fit_to_16_9 1000 2000 1920).newW
      ≤ (fit_to_16_9 1000 2000 1920).canvasW := by
  have h := fit_invariants 1000 2000 3000 (by norm_num) (by norm_num) (by norm_num)
  exact ⟨h.2.2.2.2.1, h.2.2.2.2.2.2.1, h.2.2.2.2.2.2.2.2.1⟩

end PhotoTagger
